import Mathlib

/-!
# User management slice of the blog service

Shallow embedding of `service/core/user/user.go` (use-case layer) and
`service/controller/user.go` (HTTP adapter).

The persistence layer (`dao`), the credential hasher (`bcrypt`), the token
issuer (`auth`) and the gin request context are collaborators whose code is
not part of the two files.  They are taken as parameters: the record
`Collab` holds one function per collaborator entry point, over an arbitrary
store state `σ` and an arbitrary type `ε` of collaborator error values.
Every use-case function returns, besides its Go results, the store after the
call and the list of collaborator calls it made, in order.  Logging calls
are not recorded.
-/

namespace Blog

/-! ## Data model -/

/-- Modelled from the spec: the `model.User` record (its declaration is in
the `model` package).  Section 3 lists email, username, password, bio, an
optional image and the internal id; `Image` is compared with nil in
`prepareUpdate`, so it is an optional value. -/
structure User where
  ID : Nat
  Email : String
  Username : String
  Password : String
  Bio : String
  Image : Option String
deriving DecidableEq, Repr

/-- The zero value `model.User{}`. -/
def User.zero : User := ⟨0, "", "", "", "", none⟩

/-- The `model.Token` literal built at the end of `Login`. -/
structure Token where
  AccessToken : String
  TokenType : String
  ExpiresIN : Int
deriving DecidableEq, Repr

/-- Modelled from the spec: `model.ProfileResponse`, the view of a user
record relative to a viewer: username, bio, image and the flag isFollowing. -/
structure ProfileResponse where
  Username : String
  Bio : String
  Image : Option String
  Following : Bool
deriving DecidableEq, Repr

/-- Modelled from the spec: `model.UserResponse`, the user fields without the
password hash. -/
structure UserResponse where
  Email : String
  Username : String
  Bio : String
  Image : Option String
deriving DecidableEq, Repr

/-- Modelled from the spec: the method `GeProfileResponse` of `model.User`,
which annotates the record's public profile with the given flag. -/
def User.GeProfileResponse (u : User) (isFollowing : Bool) : ProfileResponse :=
  ⟨u.Username, u.Bio, u.Image, isFollowing⟩

/-- Modelled from the spec: the method `GeUserResponse` of `model.User`,
the public view of the record (password hash excluded). -/
def User.GeUserResponse (u : User) : UserResponse :=
  ⟨u.Email, u.Username, u.Bio, u.Image⟩

/-- Go error values seen by the two files.  Go compares errors by identity:
the package-level value `errs.ErrInvalidRequest`, a value allocated by
`errors.New` inside `user.go`, and a value handed back by a collaborator are
three different kinds of value. -/
inductive GoError (ε : Type) where
  | ErrInvalidRequest : GoError ε
  | New (text : String) : GoError ε
  | collab (e : ε) : GoError ε
deriving DecidableEq, Repr

/-- Calls made to the collaborators, with their arguments (the database
handle `packet.DB` is left out). -/
inductive Call where
  | GetUserByEmail (email : String)
  | GetUserByCondition (cond : User)
  | Insert (u : User)
  | Update (u : User)
  | FollowUser (a b : Nat)
  | UnFollowUser (a b : Nat)
  | IsFollowing (a b : Nat)
  | GenerateFromPassword (password : String) (cost : Nat)
  | CompareHashAndPassword (hashed password : String)
  | GenerateJWTToken (u : User) (secret : String)
deriving DecidableEq, Repr

/-- The collaborators of the use-case layer over a store `σ`.  Reads are
functions of the store; writes and the (salted) hasher return the store
after the call.  `Insert` receives a pointer and may fill in fields of the
record, so it also returns the record as it stands afterwards. -/
structure Collab (σ ε : Type) where
  GetUserByEmail : σ → String → Except ε User
  GetUserByCondition : σ → User → Except ε User
  Insert : σ → User → Option ε × User × σ
  Update : σ → User → Option ε × σ
  FollowUser : σ → Nat → Nat → Option ε × σ
  UnFollowUser : σ → Nat → Nat → Option ε × σ
  IsFollowing : σ → Nat → Nat → Bool
  GenerateFromPassword : σ → String → Nat → Except ε String × σ
  CompareHashAndPassword : String → String → Option ε
  GenerateJWTToken : σ → User → String → Except ε String
  SecretKey : String

/-- What a use-case call leaves behind: the returned value, the returned
error (`none` is Go's nil), the store and the collaborator calls made. -/
structure Outcome (σ ε α : Type) where
  val : α
  err : Option (GoError ε)
  db : σ
  calls : List Call

/-- The constant `bcrypt.DefaultCost`. -/
def DefaultCost : Nat := 10

/-- The constant `time.Second`, in nanoseconds. -/
def Second : Int := 1000000000

/-- The constant `time.Hour`. -/
def Hour : Int := 60 * (60 * Second)

/-- The conversion `int(d.Seconds())`.  `Duration.Seconds` adds the whole
seconds `d / Second` and the fraction `(d % Second) / 1e9`; the conversion to
int drops the fraction. -/
def secondsInt (d : Int) : Int := Int.tdiv d Second

/-! ## Use-case layer (`service/core/user/user.go`) -/

namespace user

variable {σ ε : Type}

/-- Embedding of `validateRegister`. -/
def validateRegister (user : User) : Option (GoError ε) :=
  if user.Email = "" then some GoError.ErrInvalidRequest
  else if user.Username = "" then some GoError.ErrInvalidRequest
  else if user.Password = "" then some GoError.ErrInvalidRequest
  else none

/-- Embedding of `prepareUpdate`.  The value is the record behind the
pointer `old` after the call: Go returns that pointer when the error is nil,
and a nil pointer together with the hasher's error otherwise. -/
def prepareUpdate (K : Collab σ ε) (db : σ) (old new : User) : Outcome σ ε User :=
  let old1 := if new.Username ≠ "" then { old with Username := new.Username } else old
  if new.Password ≠ "" then
    let r := K.GenerateFromPassword db new.Password DefaultCost
    match r.1 with
    | Except.error e =>
      ⟨old1, some (GoError.collab e), r.2, [Call.GenerateFromPassword new.Password DefaultCost]⟩
    | Except.ok hash =>
      let old2 := { old1 with Password := hash }
      let old3 := if new.Bio ≠ "" then { old2 with Bio := new.Bio } else old2
      let old4 := if new.Image ≠ none then { old3 with Image := new.Image } else old3
      ⟨old4, none, r.2, [Call.GenerateFromPassword new.Password DefaultCost]⟩
  else
    let old3 := if new.Bio ≠ "" then { old1 with Bio := new.Bio } else old1
    let old4 := if new.Image ≠ none then { old3 with Image := new.Image } else old3
    ⟨old4, none, db, []⟩

/-- Embedding of `userUseCase.Login`. -/
def Login (K : Collab σ ε) (db : σ) (user : User) : Outcome σ ε (Option Token) :=
  match K.GetUserByEmail db user.Email with
  | Except.error e => ⟨none, some (GoError.collab e), db, [Call.GetUserByEmail user.Email]⟩
  | Except.ok dbUser =>
    match K.CompareHashAndPassword dbUser.Password user.Password with
    | some e =>
      ⟨none, some (GoError.collab e), db,
        [Call.GetUserByEmail user.Email,
         Call.CompareHashAndPassword dbUser.Password user.Password]⟩
    | none =>
      match K.GenerateJWTToken db dbUser K.SecretKey with
      | Except.error e =>
        ⟨none, some (GoError.collab e), db,
          [Call.GetUserByEmail user.Email,
           Call.CompareHashAndPassword dbUser.Password user.Password,
           Call.GenerateJWTToken dbUser K.SecretKey]⟩
      | Except.ok jwtToken =>
        let expiresIn := Hour * 1
        ⟨some ⟨jwtToken, "bearer", secondsInt expiresIn⟩, none, db,
          [Call.GetUserByEmail user.Email,
           Call.CompareHashAndPassword dbUser.Password user.Password,
           Call.GenerateJWTToken dbUser K.SecretKey]⟩

/-- Embedding of `userUseCase.Register`.  The value is the record behind the
pointer `user` as it stands when the call returns. -/
def Register (K : Collab σ ε) (db : σ) (user : User) : Outcome σ ε User :=
  match validateRegister user with
  | some err => ⟨user, some err, db, []⟩
  | none =>
    let r := K.GenerateFromPassword db user.Password DefaultCost
    match r.1 with
    | Except.error e =>
      ⟨user, some (GoError.collab e), r.2, [Call.GenerateFromPassword user.Password DefaultCost]⟩
    | Except.ok hash =>
      let user1 := { user with Password := hash }
      let w := K.Insert r.2 user1
      match w.1 with
      | some e =>
        ⟨w.2.1, some (GoError.collab e), w.2.2,
          [Call.GenerateFromPassword user.Password DefaultCost, Call.Insert user1]⟩
      | none =>
        ⟨w.2.1, none, w.2.2,
          [Call.GenerateFromPassword user.Password DefaultCost, Call.Insert user1]⟩

/-- Embedding of `userUseCase.Update`. -/
def Update (K : Collab σ ε) (db : σ) (user : User) : Outcome σ ε Unit :=
  match K.GetUserByEmail db user.Email with
  | Except.error e => ⟨(), some (GoError.collab e), db, [Call.GetUserByEmail user.Email]⟩
  | Except.ok dbUser =>
    let p := prepareUpdate K db dbUser user
    match p.err with
    | some err => ⟨(), some err, p.db, Call.GetUserByEmail user.Email :: p.calls⟩
    | none =>
      let updateData := p.val
      let w := K.Update p.db updateData
      match w.1 with
      | some e =>
        ⟨(), some (GoError.collab e), w.2,
          Call.GetUserByEmail user.Email :: (p.calls ++ [Call.Update updateData])⟩
      | none =>
        ⟨(), none, w.2,
          Call.GetUserByEmail user.Email :: (p.calls ++ [Call.Update updateData])⟩

/-- Embedding of `userUseCase.GetUserByEmail`. -/
def GetUserByEmail (K : Collab σ ε) (db : σ) (email : String) :
    Outcome σ ε (Option UserResponse) :=
  match K.GetUserByEmail db email with
  | Except.error e => ⟨none, some (GoError.collab e), db, [Call.GetUserByEmail email]⟩
  | Except.ok resp => ⟨some resp.GeUserResponse, none, db, [Call.GetUserByEmail email]⟩

/-- Embedding of `userUseCase.GetProfile`. -/
def GetProfile (K : Collab σ ε) (db : σ) (name email : String) :
    Outcome σ ε (Option ProfileResponse) :=
  match K.GetUserByEmail db email with
  | Except.error e => ⟨none, some (GoError.collab e), db, [Call.GetUserByEmail email]⟩
  | Except.ok me =>
    match K.GetUserByCondition db { User.zero with Username := name } with
    | Except.error e =>
      ⟨none, some (GoError.collab e), db,
        [Call.GetUserByEmail email,
         Call.GetUserByCondition { User.zero with Username := name }]⟩
    | Except.ok view =>
      let isFollowing := K.IsFollowing db view.ID me.ID
      ⟨some (view.GeProfileResponse isFollowing), none, db,
        [Call.GetUserByEmail email,
         Call.GetUserByCondition { User.zero with Username := name },
         Call.IsFollowing view.ID me.ID]⟩

/-- Embedding of `userUseCase.FollowUser`. -/
def FollowUser (K : Collab σ ε) (db : σ) (name email : String) :
    Outcome σ ε (Option ProfileResponse) :=
  match K.GetUserByEmail db email with
  | Except.error e => ⟨none, some (GoError.collab e), db, [Call.GetUserByEmail email]⟩
  | Except.ok me =>
    match K.GetUserByCondition db { User.zero with Username := name } with
    | Except.error e =>
      ⟨none, some (GoError.collab e), db,
        [Call.GetUserByEmail email,
         Call.GetUserByCondition { User.zero with Username := name }]⟩
    | Except.ok view =>
      let w := K.FollowUser db view.ID me.ID
      match w.1 with
      | some e =>
        ⟨none, some (GoError.collab e), w.2,
          [Call.GetUserByEmail email,
           Call.GetUserByCondition { User.zero with Username := name },
           Call.FollowUser view.ID me.ID]⟩
      | none =>
        let isFollowing := K.IsFollowing w.2 view.ID me.ID
        if isFollowing ≠ true then
          ⟨none, some (GoError.New "follow user failed"), w.2,
            [Call.GetUserByEmail email,
             Call.GetUserByCondition { User.zero with Username := name },
             Call.FollowUser view.ID me.ID,
             Call.IsFollowing view.ID me.ID]⟩
        else
          ⟨some (view.GeProfileResponse isFollowing), none, w.2,
            [Call.GetUserByEmail email,
             Call.GetUserByCondition { User.zero with Username := name },
             Call.FollowUser view.ID me.ID,
             Call.IsFollowing view.ID me.ID]⟩

/-- Embedding of `userUseCase.UnFollowUser`. -/
def UnFollowUser (K : Collab σ ε) (db : σ) (name email : String) :
    Outcome σ ε (Option ProfileResponse) :=
  match K.GetUserByEmail db email with
  | Except.error e => ⟨none, some (GoError.collab e), db, [Call.GetUserByEmail email]⟩
  | Except.ok me =>
    match K.GetUserByCondition db { User.zero with Username := name } with
    | Except.error e =>
      ⟨none, some (GoError.collab e), db,
        [Call.GetUserByEmail email,
         Call.GetUserByCondition { User.zero with Username := name }]⟩
    | Except.ok view =>
      let w := K.UnFollowUser db view.ID me.ID
      match w.1 with
      | some e =>
        ⟨none, some (GoError.collab e), w.2,
          [Call.GetUserByEmail email,
           Call.GetUserByCondition { User.zero with Username := name },
           Call.UnFollowUser view.ID me.ID]⟩
      | none =>
        let isFollowing := K.IsFollowing w.2 view.ID me.ID
        if isFollowing ≠ false then
          ⟨none, some (GoError.New "unfollow user failed"), w.2,
            [Call.GetUserByEmail email,
             Call.GetUserByCondition { User.zero with Username := name },
             Call.UnFollowUser view.ID me.ID,
             Call.IsFollowing view.ID me.ID]⟩
        else
          ⟨some (view.GeProfileResponse isFollowing), none, w.2,
            [Call.GetUserByEmail email,
             Call.GetUserByCondition { User.zero with Username := name },
             Call.UnFollowUser view.ID me.ID,
             Call.IsFollowing view.ID me.ID]⟩

end user

/-! ## Controller (`service/controller/user.go`) -/

namespace controller

variable {σ ε : Type}

/-- The interface `user.IUserCenter` held by the controller. -/
structure IUserCenter (σ ε : Type) where
  Login : σ → User → Outcome σ ε (Option Token)
  Register : σ → User → Outcome σ ε User
  Update : σ → User → Outcome σ ε Unit
  GetUserByEmail : σ → String → Outcome σ ε (Option UserResponse)
  GetProfile : σ → String → String → Outcome σ ε (Option ProfileResponse)
  FollowUser : σ → String → String → Outcome σ ε (Option ProfileResponse)
  UnFollowUser : σ → String → String → Outcome σ ε (Option ProfileResponse)

/-- The implementation returned by `newUser()`: the use-case layer over the
collaborators `K`. -/
def newUser (K : Collab σ ε) : IUserCenter σ ε :=
  ⟨user.Login K, user.Register K, user.Update K, user.GetUserByEmail K,
   user.GetProfile K, user.FollowUser K, user.UnFollowUser K⟩

/-- A value stored under a key of `jwt.MapClaims` (an interface value). -/
inductive Iface where
  | str (s : String)
  | num (n : Int)
  | other
deriving DecidableEq, Repr

/-- A value stored in the request context under the key "claims": a
`jwt.MapClaims` (a map from names to interface values, here an association
list) or a value of another dynamic type. -/
inductive KeyValue where
  | MapClaims (m : List (String × Iface))
  | other
deriving DecidableEq, Repr

/-- The part of the gin context the handlers read: the outcome of binding the
JSON body into a zero `model.User`, the value stored under "claims" (if any)
and the path parameter `username`. -/
structure Context (ε : Type) where
  bind : Except ε User
  claims : Option KeyValue
  username : String

/-- The block repeated in `Get`, `Update`, `GetProfile`, `Follow` and
`UnFollow`: `email` starts as the empty string; when `c.Get("claims")` finds a
value, `claims.(jwt.MapClaims)["email"].(string)` is assigned to it.  Both
type assertions are of the one-result form, which panics when the dynamic
type differs (`none` here). -/
def claimsEmail (claims : Option KeyValue) : Option String :=
  match claims with
  | none => some ""
  | some (KeyValue.MapClaims m) =>
    match m.lookup "email" with
    | some (Iface.str s) => some s
    | _ => none
  | some KeyValue.other => none

/-- The data handed to `responseWithJSON`. -/
inductive Payload where
  | null
  | token (t : Option Token)
  | user (r : Option UserResponse)
  | profile (r : Option ProfileResponse)
deriving DecidableEq, Repr

/-- The calls a handler makes to the response helpers of the package. -/
inductive Response (ε : Type) where
  | abortWithError (status : Nat) (err : GoError ε)
  | responseWithJSON (data : Payload)
deriving DecidableEq, Repr

/-- The calls a handler makes on `uc.core`. -/
inductive CoreCall where
  | Login (u : User)
  | Register (u : User)
  | Update (u : User)
  | GetUserByEmail (email : String)
  | GetProfile (name email : String)
  | FollowUser (name email : String)
  | UnFollowUser (name email : String)
deriving DecidableEq, Repr

/-- What a handler run leaves behind: the calls on the use-case layer, the
response calls in order, whether the run ended in a panic, and the store. -/
structure Handled (σ ε : Type) where
  core : List CoreCall
  responses : List (Response ε)
  panicked : Bool
  db : σ

/-- The constant `http.StatusBadRequest`. -/
def StatusBadRequest : Nat := 400

/-- The constant `http.StatusUnauthorized`. -/
def StatusUnauthorized : Nat := 401

/-- Embedding of `userController.Login`. -/
def Login (core : IUserCenter σ ε) (c : Context ε) (db : σ) : Handled σ ε :=
  match c.bind with
  | Except.error err =>
    ⟨[], [Response.abortWithError StatusBadRequest (GoError.collab err)], false, db⟩
  | Except.ok user =>
    let r := core.Login db user
    match r.err with
    | some err =>
      ⟨[CoreCall.Login user], [Response.abortWithError StatusUnauthorized err], false, r.db⟩
    | none =>
      ⟨[CoreCall.Login user], [Response.responseWithJSON (Payload.token r.val)], false, r.db⟩

/-- Embedding of `userController.Register`. -/
def Register (core : IUserCenter σ ε) (c : Context ε) (db : σ) : Handled σ ε :=
  match c.bind with
  | Except.error err =>
    ⟨[], [Response.abortWithError StatusBadRequest (GoError.collab err)], false, db⟩
  | Except.ok user =>
    let r := core.Register db user
    match r.err with
    | some err =>
      ⟨[CoreCall.Register user], [Response.abortWithError StatusBadRequest err], false, r.db⟩
    | none =>
      ⟨[CoreCall.Register user], [Response.responseWithJSON Payload.null], false, r.db⟩

/-- Embedding of `userController.Get`. -/
def Get (core : IUserCenter σ ε) (c : Context ε) (db : σ) : Handled σ ε :=
  match claimsEmail c.claims with
  | none => ⟨[], [], true, db⟩
  | some email =>
    let r := core.GetUserByEmail db email
    match r.err with
    | some err =>
      ⟨[CoreCall.GetUserByEmail email],
        [Response.abortWithError StatusBadRequest err,
         Response.responseWithJSON (Payload.user r.val)], false, r.db⟩
    | none =>
      ⟨[CoreCall.GetUserByEmail email],
        [Response.responseWithJSON (Payload.user r.val)], false, r.db⟩

/-- Embedding of `userController.Update`. -/
def Update (core : IUserCenter σ ε) (c : Context ε) (db : σ) : Handled σ ε :=
  match c.bind with
  | Except.error err =>
    ⟨[], [Response.abortWithError StatusBadRequest (GoError.collab err)], false, db⟩
  | Except.ok user =>
    match claimsEmail c.claims with
    | none => ⟨[], [], true, db⟩
    | some email =>
      let user1 := { user with Email := email }
      let r := core.Update db user1
      match r.err with
      | some err =>
        ⟨[CoreCall.Update user1], [Response.abortWithError StatusBadRequest err], false, r.db⟩
      | none =>
        ⟨[CoreCall.Update user1], [Response.responseWithJSON Payload.null], false, r.db⟩

/-- Embedding of `userController.GetProfile`. -/
def GetProfile (core : IUserCenter σ ε) (c : Context ε) (db : σ) : Handled σ ε :=
  let name := c.username
  match claimsEmail c.claims with
  | none => ⟨[], [], true, db⟩
  | some email =>
    let r := core.GetProfile db name email
    match r.err with
    | some err =>
      ⟨[CoreCall.GetProfile name email],
        [Response.abortWithError StatusBadRequest err,
         Response.responseWithJSON (Payload.profile r.val)], false, r.db⟩
    | none =>
      ⟨[CoreCall.GetProfile name email],
        [Response.responseWithJSON (Payload.profile r.val)], false, r.db⟩

/-- Embedding of `userController.Follow`. -/
def Follow (core : IUserCenter σ ε) (c : Context ε) (db : σ) : Handled σ ε :=
  let name := c.username
  match claimsEmail c.claims with
  | none => ⟨[], [], true, db⟩
  | some email =>
    let r := core.FollowUser db name email
    match r.err with
    | some err =>
      ⟨[CoreCall.FollowUser name email],
        [Response.abortWithError StatusBadRequest err,
         Response.responseWithJSON (Payload.profile r.val)], false, r.db⟩
    | none =>
      ⟨[CoreCall.FollowUser name email],
        [Response.responseWithJSON (Payload.profile r.val)], false, r.db⟩

/-- Embedding of `userController.UnFollow`. -/
def UnFollow (core : IUserCenter σ ε) (c : Context ε) (db : σ) : Handled σ ε :=
  let name := c.username
  match claimsEmail c.claims with
  | none => ⟨[], [], true, db⟩
  | some email =>
    let r := core.UnFollowUser db name email
    match r.err with
    | some err =>
      ⟨[CoreCall.UnFollowUser name email],
        [Response.abortWithError StatusBadRequest err,
         Response.responseWithJSON (Payload.profile r.val)], false, r.db⟩
    | none =>
      ⟨[CoreCall.UnFollowUser name email],
        [Response.responseWithJSON (Payload.profile r.val)], false, r.db⟩

end controller

/-! ## Repository laws assumed by the follow scenarios -/

/-- Set semantics of the relationship repository on ordered id pairs, as the
follow scenarios assume it.  `edges` reads the stored pairs off the store: a
follow write inserts the pair, an unfollow write removes it, `IsFollowing`
tests membership, both writes report success, a follow write keeps the pairs
free of duplicates and leaves the store as it is when the pair is already
present (upsert), and user lookups do not depend on relationship writes. -/
structure SetSemantics {σ ε : Type} (K : Collab σ ε) (edges : σ → List (Nat × Nat)) :
    Prop where
  follow_ok : ∀ db a b, (K.FollowUser db a b).1 = none
  unfollow_ok : ∀ db a b, (K.UnFollowUser db a b).1 = none
  isFollowing_mem : ∀ db a b, K.IsFollowing db a b = decide ((a, b) ∈ edges db)
  follow_mem : ∀ db a b e, e ∈ edges (K.FollowUser db a b).2 ↔ e = (a, b) ∨ e ∈ edges db
  unfollow_mem : ∀ db a b e, e ∈ edges (K.UnFollowUser db a b).2 ↔ e ≠ (a, b) ∧ e ∈ edges db
  follow_nodup : ∀ db a b, (edges db).Nodup → (edges (K.FollowUser db a b).2).Nodup
  follow_upsert : ∀ db a b, (a, b) ∈ edges db → (K.FollowUser db a b).2 = db
  follow_email : ∀ db a b e,
    K.GetUserByEmail (K.FollowUser db a b).2 e = K.GetUserByEmail db e
  follow_cond : ∀ db a b c,
    K.GetUserByCondition (K.FollowUser db a b).2 c = K.GetUserByCondition db c
  unfollow_email : ∀ db a b e,
    K.GetUserByEmail (K.UnFollowUser db a b).2 e = K.GetUserByEmail db e
  unfollow_cond : ∀ db a b c,
    K.GetUserByCondition (K.UnFollowUser db a b).2 c = K.GetUserByCondition db c

/-! ## A reference instance of the collaborators -/

namespace Mem

/-- Modelled from the spec: an in-memory store holding the user records and
the follow edges (ordered id pairs), standing for the `dao` package and the
database behind it. -/
structure MemDB where
  users : List User
  follows : List (Nat × Nat)
deriving DecidableEq, Repr

/-- Modelled from the spec: lookup of the first record satisfying a filter;
a miss is reported as an error value. -/
def lookupUser (p : User → Bool) (us : List User) : Except String User :=
  match us.find? p with
  | some u => Except.ok u
  | none => Except.error "record not found"

/-- Modelled from the spec: collaborators over `MemDB`.  Users are looked up
by email or by username; the relationship repository has set semantics with
an upsert on follow; the hasher tags the plaintext and verification checks
the tag; the token issuer joins the secret and the email. -/
def memRepo : Collab MemDB String where
  GetUserByEmail db email := lookupUser (fun u => u.Email == email) db.users
  GetUserByCondition db cond := lookupUser (fun u => u.Username == cond.Username) db.users
  Insert db u := (none, u, { db with users := db.users ++ [u] })
  Update db u :=
    (none, { db with users := db.users.map (fun v => if v.ID = u.ID then u else v) })
  FollowUser db a b :=
    (none, { db with follows := if (a, b) ∈ db.follows then db.follows else (a, b) :: db.follows })
  UnFollowUser db a b :=
    (none, { db with follows := db.follows.filter (fun e => e != (a, b)) })
  IsFollowing db a b := decide ((a, b) ∈ db.follows)
  GenerateFromPassword db p _ := (Except.ok ("$2a$" ++ p), db)
  CompareHashAndPassword h p := if h = "$2a$" ++ p then none else some "mismatch"
  GenerateJWTToken _ u secret := Except.ok (secret ++ "." ++ u.Email)
  SecretKey := "k"

/-- Modelled from the spec: a relationship repository whose writes report
success without changing the store (all else as in `memRepo`). -/
def silentRepo : Collab MemDB String :=
  { memRepo with
    FollowUser := fun db _ _ => (none, db)
    UnFollowUser := fun db _ _ => (none, db) }

/-- Sample record: alice, with the hash `memRepo` gives to "pw123". -/
def alice : User := ⟨1, "a@x.com", "alice", "$2a$pw123", "", none⟩

/-- Sample record: bob. -/
def bob : User := ⟨2, "b@x.com", "bob", "$2a$hunter2", "hi", some "b.png"⟩

/-- Sample store holding alice and bob and no edge. -/
def db0 : MemDB := ⟨[alice, bob], []⟩

/-- Sample store in which alice already follows bob. -/
def db1 : MemDB := ⟨[alice, bob], [(2, 1)]⟩

end Mem

/-! ## Theorems -/

section Theorems

variable {σ ε : Type}

open user

/-- C1: `validateRegister` returns `ErrInvalidRequest` exactly when one of
Email, Username, Password is the empty string and nil otherwise; and when it
returns that error, `Register` returns the same error, makes no collaborator
call (neither the hasher nor Insert), and leaves the store and the submitted
record (its Password included) as they were. -/
theorem register_rejects_empty_fields (K : Collab σ ε) (db : σ) (u : User) :
    ((validateRegister u : Option (GoError ε)) = some GoError.ErrInvalidRequest
        ↔ (u.Email = "" ∨ u.Username = "" ∨ u.Password = "")) ∧
    ((validateRegister u : Option (GoError ε)) = none
        ↔ ¬ (u.Email = "" ∨ u.Username = "" ∨ u.Password = "")) ∧
    ((validateRegister u : Option (GoError ε)) = some GoError.ErrInvalidRequest →
        (Register K db u).err = some GoError.ErrInvalidRequest ∧
        (Register K db u).calls = [] ∧
        (Register K db u).db = db ∧
        (Register K db u).val = u) := by
  refine ⟨?_, ?_, ?_⟩
  · unfold validateRegister
    by_cases h1 : u.Email = "" <;> by_cases h2 : u.Username = "" <;>
      by_cases h3 : u.Password = "" <;> simp [h1, h2, h3]
  · unfold validateRegister
    by_cases h1 : u.Email = "" <;> by_cases h2 : u.Username = "" <;>
      by_cases h3 : u.Password = "" <;> simp [h1, h2, h3]
  · intro h
    simp [Register, h]

/-- C1, evaluated on a record with an empty username over the sample store. -/
theorem register_rejects_empty_fields_witness :
    (validateRegister ⟨0, "c@x.com", "", "pw", "", none⟩ : Option (GoError String))
        = some GoError.ErrInvalidRequest ∧
    (Register Mem.memRepo Mem.db0 ⟨0, "c@x.com", "", "pw", "", none⟩).err
        = some GoError.ErrInvalidRequest ∧
    (Register Mem.memRepo Mem.db0 ⟨0, "c@x.com", "", "pw", "", none⟩).calls = [] ∧
    (Register Mem.memRepo Mem.db0 ⟨0, "c@x.com", "", "pw", "", none⟩).db = Mem.db0 ∧
    (Register Mem.memRepo Mem.db0 ⟨0, "c@x.com", "", "pw", "", none⟩).val
        = ⟨0, "c@x.com", "", "pw", "", none⟩ :=
  ⟨by decide,
   (register_rejects_empty_fields Mem.memRepo Mem.db0
      ⟨0, "c@x.com", "", "pw", "", none⟩).2.2 (by decide)⟩

/-- C2: when hashing of a non-empty incoming password succeeds with `hash`,
`prepareUpdate` returns (nil error) the old record with Username, Bio, Image
replaced by the incoming value exactly when that value is non-empty (non-nil
for Image), Password replaced by `hash` exactly when the incoming password is
non-empty, and ID and Email untouched.  With an empty incoming password the
hasher is not called and the store is unchanged; an incoming record with only
Bio set changes only Bio; an empty incoming Bio keeps the stored Bio. -/
theorem prepareUpdate_merges_nonempty_fields (K : Collab σ ε) (db : σ) (old new : User)
    (hash : String)
    (hHash : new.Password ≠ "" →
      (K.GenerateFromPassword db new.Password DefaultCost).1 = Except.ok hash) :
    (prepareUpdate K db old new).err = none ∧
    (prepareUpdate K db old new).val =
      { ID := old.ID
        Email := old.Email
        Username := if new.Username = "" then old.Username else new.Username
        Password := if new.Password = "" then old.Password else hash
        Bio := if new.Bio = "" then old.Bio else new.Bio
        Image := if new.Image = none then old.Image else new.Image } ∧
    (new.Password = "" →
      (prepareUpdate K db old new).calls = [] ∧ (prepareUpdate K db old new).db = db) ∧
    (new.Password ≠ "" →
      (prepareUpdate K db old new).calls
        = [Call.GenerateFromPassword new.Password DefaultCost]) ∧
    (new.Username = "" → new.Password = "" → new.Image = none → new.Bio ≠ "" →
      (prepareUpdate K db old new).val = { old with Bio := new.Bio }) ∧
    (new.Bio = "" → (prepareUpdate K db old new).val.Bio = old.Bio) := by
  by_cases hp : new.Password = ""
  · by_cases hu : new.Username = "" <;> by_cases hb : new.Bio = "" <;>
      by_cases hi : new.Image = none <;>
      simp [prepareUpdate, hp, hu, hb, hi]
  · have h := hHash hp
    by_cases hu : new.Username = "" <;> by_cases hb : new.Bio = "" <;>
      by_cases hi : new.Image = none <;>
      simp [prepareUpdate, hp, hu, hb, hi, h]

/-- C2, evaluated on bob with an incoming record that sets a password and a
bio only. -/
theorem prepareUpdate_merges_nonempty_fields_witness :
    (prepareUpdate Mem.memRepo Mem.db0 Mem.bob ⟨0, "", "", "s3", "new bio", none⟩).err = none ∧
    (prepareUpdate Mem.memRepo Mem.db0 Mem.bob ⟨0, "", "", "s3", "new bio", none⟩).val
      = ⟨2, "b@x.com", "bob", "$2a$s3", "new bio", some "b.png"⟩ :=
  ⟨(prepareUpdate_merges_nonempty_fields Mem.memRepo Mem.db0 Mem.bob
      ⟨0, "", "", "s3", "new bio", none⟩ "$2a$s3" (fun _ => rfl)).1,
   ((prepareUpdate_merges_nonempty_fields Mem.memRepo Mem.db0 Mem.bob
      ⟨0, "", "", "s3", "new bio", none⟩ "$2a$s3" (fun _ => rfl)).2.1).trans (by decide)⟩

/-- C3: when the email resolves to a stored record and the hasher rejects
the submitted password with error `e`, `Login` returns a nil Token and that
error, after a lookup and a comparison only (the token issuer is not called),
and the controller answers it with status 401; when the email lookup fails
with `e`, `Login` returns a nil Token and `e` after the lookup alone (neither
the hasher nor the token issuer is called). -/
theorem login_failure_issues_no_token (K : Collab σ ε) (db : σ) (u : User) :
    (∀ dbUser e, K.GetUserByEmail db u.Email = Except.ok dbUser →
        K.CompareHashAndPassword dbUser.Password u.Password = some e →
        (Login K db u).val = none ∧
        (Login K db u).err = some (GoError.collab e) ∧
        (Login K db u).db = db ∧
        (Login K db u).calls =
          [Call.GetUserByEmail u.Email,
           Call.CompareHashAndPassword dbUser.Password u.Password] ∧
        (∀ x s, Call.GenerateJWTToken x s ∉ (Login K db u).calls) ∧
        (∀ claims name,
          (controller.Login (controller.newUser K) ⟨Except.ok u, claims, name⟩ db).responses
            = [controller.Response.abortWithError controller.StatusUnauthorized
                (GoError.collab e)])) ∧
    (∀ e, K.GetUserByEmail db u.Email = Except.error e →
        (Login K db u).val = none ∧
        (Login K db u).err = some (GoError.collab e) ∧
        (Login K db u).db = db ∧
        (Login K db u).calls = [Call.GetUserByEmail u.Email]) := by
  refine ⟨?_, ?_⟩
  · intro dbUser e h1 h2
    simp [Login, controller.Login, controller.newUser, h1, h2]
  · intro e h1
    simp [Login, h1]

/-- C3, evaluated over the sample store: a wrong password for alice, and an
email that is not stored. -/
theorem login_failure_issues_no_token_witness :
    (Login Mem.memRepo Mem.db0 ⟨0, "a@x.com", "", "wrong", "", none⟩).val = none ∧
    (Login Mem.memRepo Mem.db0 ⟨0, "a@x.com", "", "wrong", "", none⟩).err
      = some (GoError.collab "mismatch") ∧
    (Login Mem.memRepo Mem.db0 ⟨0, "z@x.com", "", "pw123", "", none⟩).calls
      = [Call.GetUserByEmail "z@x.com"] :=
  ⟨((login_failure_issues_no_token Mem.memRepo Mem.db0
        ⟨0, "a@x.com", "", "wrong", "", none⟩).1 Mem.alice "mismatch" rfl rfl).1,
   ((login_failure_issues_no_token Mem.memRepo Mem.db0
        ⟨0, "a@x.com", "", "wrong", "", none⟩).1 Mem.alice "mismatch" rfl rfl).2.1,
   ((login_failure_issues_no_token Mem.memRepo Mem.db0
        ⟨0, "z@x.com", "", "pw123", "", none⟩).2 "record not found" rfl).2.2.2⟩

/-- C4: when the email resolves to the stored record `dbUser`, the password
verifies against its hash and the token issuer returns `jwtToken` for
`dbUser`, `Login` returns a nil error and the Token with AccessToken
`jwtToken`, TokenType "bearer" and ExpiresIN 3600, the whole seconds of
`time.Hour`. -/
theorem login_success_token (K : Collab σ ε) (db : σ) (u dbUser : User) (jwtToken : String)
    (hUser : K.GetUserByEmail db u.Email = Except.ok dbUser)
    (hPass : K.CompareHashAndPassword dbUser.Password u.Password = none)
    (hTok : K.GenerateJWTToken db dbUser K.SecretKey = Except.ok jwtToken) :
    (Login K db u).err = none ∧
    (Login K db u).val = some ⟨jwtToken, "bearer", 3600⟩ ∧
    (Login K db u).calls =
      [Call.GetUserByEmail u.Email,
       Call.CompareHashAndPassword dbUser.Password u.Password,
       Call.GenerateJWTToken dbUser K.SecretKey] ∧
    secondsInt (Hour * 1) = 3600 := by
  have hs : secondsInt Hour = 3600 := by decide
  simp [Login, hUser, hPass, hTok, hs]

/-- C4, evaluated over the sample store: alice logs in with "pw123". -/
theorem login_success_token_witness :
    (Login Mem.memRepo Mem.db0 ⟨0, "a@x.com", "", "pw123", "", none⟩).err = none ∧
    (Login Mem.memRepo Mem.db0 ⟨0, "a@x.com", "", "pw123", "", none⟩).val
      = some ⟨"k.a@x.com", "bearer", 3600⟩ :=
  ⟨(login_success_token Mem.memRepo Mem.db0 ⟨0, "a@x.com", "", "pw123", "", none⟩
      Mem.alice "k.a@x.com" rfl rfl rfl).1,
   (login_success_token Mem.memRepo Mem.db0 ⟨0, "a@x.com", "", "pw123", "", none⟩
      Mem.alice "k.a@x.com" rfl rfl rfl).2.1⟩

/-- C5: for a record with non-empty Email, Username and Password whose
password the hasher turns into `hash`, `Register` calls the hasher on the
submitted plaintext and then Insert on the submitted record with Password
replaced by `hash` and every other field as submitted; so when the hasher
satisfies `hash ≠ plaintext` and verification of the plaintext against its
hash succeeds, the password handed to Insert differs from the plaintext and
verifies against it. -/
theorem register_inserts_hashed_password (K : Collab σ ε) (db : σ) (u : User) (hash : String)
    (hEmail : u.Email ≠ "") (hName : u.Username ≠ "") (hPass : u.Password ≠ "")
    (hHash : (K.GenerateFromPassword db u.Password DefaultCost).1 = Except.ok hash) :
    (Register K db u).calls =
      [Call.GenerateFromPassword u.Password DefaultCost,
       Call.Insert ⟨u.ID, u.Email, u.Username, hash, u.Bio, u.Image⟩] ∧
    (Register K db u).err =
      (K.Insert (K.GenerateFromPassword db u.Password DefaultCost).2
        ⟨u.ID, u.Email, u.Username, hash, u.Bio, u.Image⟩).1.map GoError.collab ∧
    (Register K db u).db =
      (K.Insert (K.GenerateFromPassword db u.Password DefaultCost).2
        ⟨u.ID, u.Email, u.Username, hash, u.Bio, u.Image⟩).2.2 ∧
    ((∀ s p c h, (K.GenerateFromPassword s p c).1 = Except.ok h →
          h ≠ p ∧ K.CompareHashAndPassword h p = none) →
      ∀ r, Call.Insert r ∈ (Register K db u).calls →
        r.Password ≠ u.Password ∧ K.CompareHashAndPassword r.Password u.Password = none) := by
  have hv : (validateRegister u : Option (GoError ε)) = none := by
    simp [validateRegister, hEmail, hName, hPass]
  have hcalls : (Register K db u).calls =
      [Call.GenerateFromPassword u.Password DefaultCost,
       Call.Insert ⟨u.ID, u.Email, u.Username, hash, u.Bio, u.Image⟩] := by
    simp only [Register, hv, hHash]
    split <;> rfl
  refine ⟨hcalls, ?_, ?_, ?_⟩
  · simp only [Register, hv, hHash]
    split <;> simp_all
  · simp only [Register, hv, hHash]
    split <;> rfl
  · intro hLaw r hr
    rw [hcalls] at hr
    simp at hr
    subst hr
    exact hLaw db u.Password DefaultCost hash hHash

/-- C5, evaluated over the sample store: registering carol with "pw". -/
theorem register_inserts_hashed_password_witness :
    (Register Mem.memRepo Mem.db0 ⟨3, "c@x.com", "carol", "pw", "", none⟩).calls =
      [Call.GenerateFromPassword "pw" DefaultCost,
       Call.Insert ⟨3, "c@x.com", "carol", "$2a$pw", "", none⟩] ∧
    (Register Mem.memRepo Mem.db0 ⟨3, "c@x.com", "carol", "pw", "", none⟩).err = none :=
  ⟨(register_inserts_hashed_password Mem.memRepo Mem.db0
      ⟨3, "c@x.com", "carol", "pw", "", none⟩ "$2a$pw"
      (by decide) (by decide) (by decide) rfl).1,
   ((register_inserts_hashed_password Mem.memRepo Mem.db0
      ⟨3, "c@x.com", "carol", "pw", "", none⟩ "$2a$pw"
      (by decide) (by decide) (by decide) rfl).2.1).trans (by decide)⟩

/-- The reference instance `memRepo` has set semantics, with the stored
list of pairs as its edges. -/
theorem memRepo_setSemantics : SetSemantics Mem.memRepo Mem.MemDB.follows where
  follow_ok := fun _ _ _ => rfl
  unfollow_ok := fun _ _ _ => rfl
  isFollowing_mem := fun _ _ _ => rfl
  follow_mem := by
    intro db a b e
    simp only [Mem.memRepo]
    by_cases h : (a, b) ∈ db.follows
    · simp only [h, if_true]
      constructor
      · intro he; exact Or.inr he
      · rintro (rfl | he)
        · exact h
        · exact he
    · simp [h]
  unfollow_mem := by
    intro db a b e
    simp only [Mem.memRepo, List.mem_filter]
    constructor
    · rintro ⟨h1, h2⟩
      exact ⟨by simpa using h2, h1⟩
    · rintro ⟨h1, h2⟩
      exact ⟨h2, by simpa using h1⟩
  follow_nodup := by
    intro db a b hN
    simp only [Mem.memRepo]
    by_cases h : (a, b) ∈ db.follows
    · simpa [h] using hN
    · simp only [h, if_false]
      exact List.nodup_cons.mpr ⟨h, hN⟩
  follow_upsert := by
    intro db a b h
    simp [Mem.memRepo, h]
  follow_email := fun _ _ _ _ => rfl
  follow_cond := fun _ _ _ _ => rfl
  unfollow_email := fun _ _ _ _ => rfl
  unfollow_cond := fun _ _ _ _ => rfl

/-- C6: for any collaborators, when `FollowUser` returns a nil error its
response is the profile of the looked-up subject with isFollowing = true, and
it returns the error "follow user failed" (with a nil response) exactly when
both lookups succeeded, the follow write reported success and the re-read of
the edge in the store after the write is false; symmetrically for
`UnFollowUser` with isFollowing = false, "unfollow user failed" and a re-read
that is still true. -/
theorem follow_unfollow_recheck (K : Collab σ ε) (db : σ) (name email : String) :
    ((FollowUser K db name email).err = none →
      ∃ me view, K.GetUserByEmail db email = Except.ok me ∧
        K.GetUserByCondition db { User.zero with Username := name } = Except.ok view ∧
        (FollowUser K db name email).val = some (view.GeProfileResponse true)) ∧
    ((FollowUser K db name email).err = some (GoError.New "follow user failed") ↔
      ∃ me view, K.GetUserByEmail db email = Except.ok me ∧
        K.GetUserByCondition db { User.zero with Username := name } = Except.ok view ∧
        (K.FollowUser db view.ID me.ID).1 = none ∧
        K.IsFollowing (K.FollowUser db view.ID me.ID).2 view.ID me.ID = false) ∧
    ((FollowUser K db name email).err = some (GoError.New "follow user failed") →
      (FollowUser K db name email).val = none) ∧
    ((UnFollowUser K db name email).err = none →
      ∃ me view, K.GetUserByEmail db email = Except.ok me ∧
        K.GetUserByCondition db { User.zero with Username := name } = Except.ok view ∧
        (UnFollowUser K db name email).val = some (view.GeProfileResponse false)) ∧
    ((UnFollowUser K db name email).err = some (GoError.New "unfollow user failed") ↔
      ∃ me view, K.GetUserByEmail db email = Except.ok me ∧
        K.GetUserByCondition db { User.zero with Username := name } = Except.ok view ∧
        (K.UnFollowUser db view.ID me.ID).1 = none ∧
        K.IsFollowing (K.UnFollowUser db view.ID me.ID).2 view.ID me.ID = true) ∧
    ((UnFollowUser K db name email).err = some (GoError.New "unfollow user failed") →
      (UnFollowUser K db name email).val = none) := by
  cases hme : K.GetUserByEmail db email with
  | error e => simp [FollowUser, UnFollowUser, hme]
  | ok me =>
    cases hview : K.GetUserByCondition db { User.zero with Username := name } with
    | error e => simp [FollowUser, UnFollowUser, hme, hview]
    | ok view =>
      have hF : ∀ P : Outcome σ ε (Option ProfileResponse) → Prop,
          (∀ e, (K.FollowUser db view.ID me.ID).1 = some e →
            P ⟨none, some (GoError.collab e), (K.FollowUser db view.ID me.ID).2,
              [Call.GetUserByEmail email,
               Call.GetUserByCondition { User.zero with Username := name },
               Call.FollowUser view.ID me.ID]⟩) →
          ((K.FollowUser db view.ID me.ID).1 = none →
            K.IsFollowing (K.FollowUser db view.ID me.ID).2 view.ID me.ID = false →
            P ⟨none, some (GoError.New "follow user failed"), (K.FollowUser db view.ID me.ID).2,
              [Call.GetUserByEmail email,
               Call.GetUserByCondition { User.zero with Username := name },
               Call.FollowUser view.ID me.ID, Call.IsFollowing view.ID me.ID]⟩) →
          ((K.FollowUser db view.ID me.ID).1 = none →
            K.IsFollowing (K.FollowUser db view.ID me.ID).2 view.ID me.ID = true →
            P ⟨some (view.GeProfileResponse true), none, (K.FollowUser db view.ID me.ID).2,
              [Call.GetUserByEmail email,
               Call.GetUserByCondition { User.zero with Username := name },
               Call.FollowUser view.ID me.ID, Call.IsFollowing view.ID me.ID]⟩) →
          P (FollowUser K db name email) := by
        intro P h1 h2 h3
        cases hw : (K.FollowUser db view.ID me.ID).1 with
        | some e =>
          have := h1 e hw
          simpa [FollowUser, hme, hview, hw] using this
        | none =>
          cases hf : K.IsFollowing (K.FollowUser db view.ID me.ID).2 view.ID me.ID with
          | false =>
            have := h2 hw hf
            simpa [FollowUser, hme, hview, hw, hf] using this
          | true =>
            have := h3 hw hf
            simpa [FollowUser, hme, hview, hw, hf] using this
      have hU : ∀ P : Outcome σ ε (Option ProfileResponse) → Prop,
          (∀ e, (K.UnFollowUser db view.ID me.ID).1 = some e →
            P ⟨none, some (GoError.collab e), (K.UnFollowUser db view.ID me.ID).2,
              [Call.GetUserByEmail email,
               Call.GetUserByCondition { User.zero with Username := name },
               Call.UnFollowUser view.ID me.ID]⟩) →
          ((K.UnFollowUser db view.ID me.ID).1 = none →
            K.IsFollowing (K.UnFollowUser db view.ID me.ID).2 view.ID me.ID = true →
            P ⟨none, some (GoError.New "unfollow user failed"),
              (K.UnFollowUser db view.ID me.ID).2,
              [Call.GetUserByEmail email,
               Call.GetUserByCondition { User.zero with Username := name },
               Call.UnFollowUser view.ID me.ID, Call.IsFollowing view.ID me.ID]⟩) →
          ((K.UnFollowUser db view.ID me.ID).1 = none →
            K.IsFollowing (K.UnFollowUser db view.ID me.ID).2 view.ID me.ID = false →
            P ⟨some (view.GeProfileResponse false), none, (K.UnFollowUser db view.ID me.ID).2,
              [Call.GetUserByEmail email,
               Call.GetUserByCondition { User.zero with Username := name },
               Call.UnFollowUser view.ID me.ID, Call.IsFollowing view.ID me.ID]⟩) →
          P (UnFollowUser K db name email) := by
        intro P h1 h2 h3
        cases hw : (K.UnFollowUser db view.ID me.ID).1 with
        | some e =>
          have := h1 e hw
          simpa [UnFollowUser, hme, hview, hw] using this
        | none =>
          cases hf : K.IsFollowing (K.UnFollowUser db view.ID me.ID).2 view.ID me.ID with
          | true =>
            have := h2 hw hf
            simpa [UnFollowUser, hme, hview, hw, hf] using this
          | false =>
            have := h3 hw hf
            simpa [UnFollowUser, hme, hview, hw, hf] using this
      refine ⟨?_, ?_, ?_, ?_, ?_, ?_⟩
      · exact hF (fun r => r.err = none → ∃ me1 view1, Except.ok me = Except.ok me1 ∧
            Except.ok view = Except.ok view1 ∧ r.val = some (view1.GeProfileResponse true))
          (by simp) (by simp) (by simp)
      · exact hF (fun r => r.err = some (GoError.New "follow user failed") ↔
            ∃ me1 view1, Except.ok me = Except.ok me1 ∧ Except.ok view = Except.ok view1 ∧
              (K.FollowUser db view1.ID me1.ID).1 = none ∧
              K.IsFollowing (K.FollowUser db view1.ID me1.ID).2 view1.ID me1.ID = false)
          (by intro e hw; simp [hw]) (by intro hw hf; simp [hw, hf])
          (by intro hw hf; simp [hw, hf])
      · exact hF (fun r => r.err = some (GoError.New "follow user failed") → r.val = none)
          (by simp) (by simp) (by simp)
      · exact hU (fun r => r.err = none → ∃ me1 view1, Except.ok me = Except.ok me1 ∧
            Except.ok view = Except.ok view1 ∧ r.val = some (view1.GeProfileResponse false))
          (by simp) (by simp) (by simp)
      · exact hU (fun r => r.err = some (GoError.New "unfollow user failed") ↔
            ∃ me1 view1, Except.ok me = Except.ok me1 ∧ Except.ok view = Except.ok view1 ∧
              (K.UnFollowUser db view1.ID me1.ID).1 = none ∧
              K.IsFollowing (K.UnFollowUser db view1.ID me1.ID).2 view1.ID me1.ID = true)
          (by intro e hw; simp [hw]) (by intro hw hf; simp [hw, hf])
          (by intro hw hf; simp [hw, hf])
      · exact hU (fun r => r.err = some (GoError.New "unfollow user failed") → r.val = none)
          (by simp) (by simp) (by simp)

/-- C6, evaluated on a repository whose writes silently do nothing: following
bob from the empty edge set fails the re-read, and unfollowing him when the
edge is stored fails it too. -/
theorem follow_unfollow_recheck_witness :
    (FollowUser Mem.silentRepo Mem.db0 "bob" "a@x.com").err
      = some (GoError.New "follow user failed") ∧
    (FollowUser Mem.silentRepo Mem.db0 "bob" "a@x.com").val = none ∧
    (UnFollowUser Mem.silentRepo Mem.db1 "bob" "a@x.com").err
      = some (GoError.New "unfollow user failed") ∧
    (∃ me view, Mem.memRepo.GetUserByEmail Mem.db0 "a@x.com" = Except.ok me ∧
        Mem.memRepo.GetUserByCondition Mem.db0 { User.zero with Username := "bob" }
          = Except.ok view ∧
        (FollowUser Mem.memRepo Mem.db0 "bob" "a@x.com").val
          = some (view.GeProfileResponse true)) :=
  ⟨(follow_unfollow_recheck Mem.silentRepo Mem.db0 "bob" "a@x.com").2.1.mpr
      ⟨Mem.alice, Mem.bob, rfl, rfl, rfl, rfl⟩,
   (follow_unfollow_recheck Mem.silentRepo Mem.db0 "bob" "a@x.com").2.2.1 (by decide),
   (follow_unfollow_recheck Mem.silentRepo Mem.db1 "bob" "a@x.com").2.2.2.2.1.mpr
      ⟨Mem.alice, Mem.bob, rfl, rfl, rfl, rfl⟩,
   (follow_unfollow_recheck Mem.memRepo Mem.db0 "bob" "a@x.com").1 (by decide)⟩

/-- An element of a duplicate-free list occurs in it exactly once. -/
theorem count_eq_one_of_nodup_mem {α : Type} [BEq α] [LawfulBEq α] {a : α} :
    ∀ {l : List α}, l.Nodup → a ∈ l → l.count a = 1
  | [], _, h => by cases h
  | b :: l, d, h => by
    have hd := List.nodup_cons.mp d
    by_cases hab : b = a
    · subst hab
      simp [List.count_cons, List.count_eq_zero_of_not_mem hd.1]
    · have hne : (b == a) = false := by simpa using hab
      have hmem : a ∈ l := by
        rcases List.mem_cons.mp h with h1 | h1
        · exact absurd h1.symm hab
        · exact h1
      simp [List.count_cons, hne, count_eq_one_of_nodup_mem hd.2 hmem]

/-- Over set semantics, the pair of a follow write is stored afterwards. -/
theorem isFollowing_after_follow (K : Collab σ ε) (edges : σ → List (Nat × Nat))
    (S : SetSemantics K edges) (db : σ) (a b : Nat) :
    K.IsFollowing (K.FollowUser db a b).2 a b = true := by
  rw [S.isFollowing_mem, decide_eq_true_eq, S.follow_mem]
  exact Or.inl rfl

/-- Over set semantics, the pair of an unfollow write is not stored
afterwards. -/
theorem isFollowing_after_unfollow (K : Collab σ ε) (edges : σ → List (Nat × Nat))
    (S : SetSemantics K edges) (db : σ) (a b : Nat) :
    K.IsFollowing (K.UnFollowUser db a b).2 a b = false := by
  rw [S.isFollowing_mem, decide_eq_false_iff_not, S.unfollow_mem]
  exact fun h => h.1 rfl

/-- Over set semantics, `FollowUser` on stored users succeeds and leaves the
store of the follow write. -/
theorem followUser_of_setSemantics (K : Collab σ ε) (edges : σ → List (Nat × Nat))
    (S : SetSemantics K edges) (db : σ) (A B : User)
    (hA : K.GetUserByEmail db A.Email = Except.ok A)
    (hB : K.GetUserByCondition db { User.zero with Username := B.Username } = Except.ok B) :
    FollowUser K db B.Username A.Email =
      ⟨some (B.GeProfileResponse true), none, (K.FollowUser db B.ID A.ID).2,
        [Call.GetUserByEmail A.Email,
         Call.GetUserByCondition { User.zero with Username := B.Username },
         Call.FollowUser B.ID A.ID, Call.IsFollowing B.ID A.ID]⟩ := by
  have h1 := S.follow_ok db B.ID A.ID
  have h2 := isFollowing_after_follow K edges S db B.ID A.ID
  simp [FollowUser, hA, hB, h1, h2]

/-- Over set semantics, `UnFollowUser` on stored users succeeds and leaves the
store of the unfollow write. -/
theorem unFollowUser_of_setSemantics (K : Collab σ ε) (edges : σ → List (Nat × Nat))
    (S : SetSemantics K edges) (db : σ) (A B : User)
    (hA : K.GetUserByEmail db A.Email = Except.ok A)
    (hB : K.GetUserByCondition db { User.zero with Username := B.Username } = Except.ok B) :
    UnFollowUser K db B.Username A.Email =
      ⟨some (B.GeProfileResponse false), none, (K.UnFollowUser db B.ID A.ID).2,
        [Call.GetUserByEmail A.Email,
         Call.GetUserByCondition { User.zero with Username := B.Username },
         Call.UnFollowUser B.ID A.ID, Call.IsFollowing B.ID A.ID]⟩ := by
  have h1 := S.unfollow_ok db B.ID A.ID
  have h2 := isFollowing_after_unfollow K edges S db B.ID A.ID
  simp [UnFollowUser, hA, hB, h1, h2]

/-- C7: over a relationship repository with set semantics on ordered id
pairs and a user repository in which the email of A resolves to A and the
username of B resolves to B, `FollowUser(B.username, A.email)` succeeds and
`GetProfile(B.username, A.email)` on the store it leaves returns the profile
of B with isFollowing = true; `UnFollowUser(B.username, A.email)` succeeds
and `GetProfile` on the store it leaves returns the profile of B with
isFollowing = false.  The follow write, the unfollow write and every
`IsFollowing` read are made with the same arguments `(B.ID, A.ID)`, that is
`(view.ID, me.ID)`: the edge from the viewer A to the subject B. -/
theorem follow_then_getProfile (K : Collab σ ε) (edges : σ → List (Nat × Nat))
    (S : SetSemantics K edges) (db : σ) (A B : User)
    (hA : K.GetUserByEmail db A.Email = Except.ok A)
    (hB : K.GetUserByCondition db { User.zero with Username := B.Username } = Except.ok B) :
    (FollowUser K db B.Username A.Email).err = none ∧
    GetProfile K (FollowUser K db B.Username A.Email).db B.Username A.Email =
      ⟨some (B.GeProfileResponse true), none, (FollowUser K db B.Username A.Email).db,
        [Call.GetUserByEmail A.Email,
         Call.GetUserByCondition { User.zero with Username := B.Username },
         Call.IsFollowing B.ID A.ID]⟩ ∧
    (UnFollowUser K db B.Username A.Email).err = none ∧
    GetProfile K (UnFollowUser K db B.Username A.Email).db B.Username A.Email =
      ⟨some (B.GeProfileResponse false), none, (UnFollowUser K db B.Username A.Email).db,
        [Call.GetUserByEmail A.Email,
         Call.GetUserByCondition { User.zero with Username := B.Username },
         Call.IsFollowing B.ID A.ID]⟩ ∧
    (FollowUser K db B.Username A.Email).calls =
      [Call.GetUserByEmail A.Email,
       Call.GetUserByCondition { User.zero with Username := B.Username },
       Call.FollowUser B.ID A.ID, Call.IsFollowing B.ID A.ID] ∧
    (UnFollowUser K db B.Username A.Email).calls =
      [Call.GetUserByEmail A.Email,
       Call.GetUserByCondition { User.zero with Username := B.Username },
       Call.UnFollowUser B.ID A.ID, Call.IsFollowing B.ID A.ID] := by
  rw [followUser_of_setSemantics K edges S db A B hA hB,
    unFollowUser_of_setSemantics K edges S db A B hA hB]
  have hA1 := (S.follow_email db B.ID A.ID A.Email).trans hA
  have hB1 := (S.follow_cond db B.ID A.ID { User.zero with Username := B.Username }).trans hB
  have hA2 := (S.unfollow_email db B.ID A.ID A.Email).trans hA
  have hB2 := (S.unfollow_cond db B.ID A.ID { User.zero with Username := B.Username }).trans hB
  have h1 := isFollowing_after_follow K edges S db B.ID A.ID
  have h2 := isFollowing_after_unfollow K edges S db B.ID A.ID
  refine ⟨rfl, ?_, rfl, ?_, rfl, rfl⟩
  · simp [GetProfile, hA1, hB1, h1]
  · simp [GetProfile, hA2, hB2, h2]

/-- C7, evaluated over the reference instance: alice follows bob from the
empty edge set, and unfollows him from the store holding the edge. -/
theorem follow_then_getProfile_witness :
    (GetProfile Mem.memRepo (FollowUser Mem.memRepo Mem.db0 "bob" "a@x.com").db
        "bob" "a@x.com").val = some ⟨"bob", "hi", some "b.png", true⟩ ∧
    (GetProfile Mem.memRepo (UnFollowUser Mem.memRepo Mem.db1 "bob" "a@x.com").db
        "bob" "a@x.com").val = some ⟨"bob", "hi", some "b.png", false⟩ :=
  ⟨congrArg Outcome.val
      (follow_then_getProfile Mem.memRepo Mem.MemDB.follows memRepo_setSemantics Mem.db0
        Mem.alice Mem.bob rfl rfl).2.1,
   congrArg Outcome.val
      (follow_then_getProfile Mem.memRepo Mem.MemDB.follows memRepo_setSemantics Mem.db1
        Mem.alice Mem.bob rfl rfl).2.2.2.1⟩

/-- C8: over a relationship repository with upsert (set) semantics, a store
whose edges are free of duplicates and stored users A and B, the second of
two successive calls `FollowUser(B.username, A.email)` returns a nil error
and the profile of B with isFollowing = true, and leaves the store exactly
as the first call left it; in that store the edge `(B.ID, A.ID)` occurs
exactly once, every other pair is stored exactly when it was before the
first call, and all user lookups are as they were before the first call. -/
theorem follow_twice_idempotent (K : Collab σ ε) (edges : σ → List (Nat × Nat))
    (S : SetSemantics K edges) (db : σ) (A B : User)
    (hN : (edges db).Nodup)
    (hA : K.GetUserByEmail db A.Email = Except.ok A)
    (hB : K.GetUserByCondition db { User.zero with Username := B.Username } = Except.ok B) :
    (FollowUser K (FollowUser K db B.Username A.Email).db B.Username A.Email).err = none ∧
    (FollowUser K (FollowUser K db B.Username A.Email).db B.Username A.Email).val
      = some (B.GeProfileResponse true) ∧
    (FollowUser K (FollowUser K db B.Username A.Email).db B.Username A.Email).db
      = (FollowUser K db B.Username A.Email).db ∧
    (edges (FollowUser K (FollowUser K db B.Username A.Email).db
      B.Username A.Email).db).count (B.ID, A.ID) = 1 ∧
    (∀ e, e ≠ (B.ID, A.ID) →
      (e ∈ edges (FollowUser K (FollowUser K db B.Username A.Email).db
        B.Username A.Email).db ↔ e ∈ edges db)) ∧
    (∀ e, K.GetUserByEmail (FollowUser K (FollowUser K db B.Username A.Email).db
        B.Username A.Email).db e = K.GetUserByEmail db e) ∧
    (∀ c, K.GetUserByCondition (FollowUser K (FollowUser K db B.Username A.Email).db
        B.Username A.Email).db c = K.GetUserByCondition db c) := by
  have hA1 := (S.follow_email db B.ID A.ID A.Email).trans hA
  have hB1 := (S.follow_cond db B.ID A.ID { User.zero with Username := B.Username }).trans hB
  have hmem : (B.ID, A.ID) ∈ edges (K.FollowUser db B.ID A.ID).2 :=
    (S.follow_mem db B.ID A.ID (B.ID, A.ID)).mpr (Or.inl rfl)
  have hup := S.follow_upsert (K.FollowUser db B.ID A.ID).2 B.ID A.ID hmem
  rw [followUser_of_setSemantics K edges S db A B hA hB]
  rw [followUser_of_setSemantics K edges S (K.FollowUser db B.ID A.ID).2 A B hA1 hB1]
  refine ⟨rfl, rfl, hup, ?_, ?_, ?_, ?_⟩
  · show (edges (K.FollowUser (K.FollowUser db B.ID A.ID).2 B.ID A.ID).2).count (B.ID, A.ID) = 1
    rw [hup]
    exact count_eq_one_of_nodup_mem (S.follow_nodup db B.ID A.ID hN) hmem
  · intro e he
    show e ∈ edges (K.FollowUser (K.FollowUser db B.ID A.ID).2 B.ID A.ID).2 ↔ _
    rw [hup, S.follow_mem]
    simp [he]
  · intro e
    show K.GetUserByEmail (K.FollowUser (K.FollowUser db B.ID A.ID).2 B.ID A.ID).2 e = _
    rw [hup, S.follow_email]
  · intro c
    show K.GetUserByCondition (K.FollowUser (K.FollowUser db B.ID A.ID).2 B.ID A.ID).2 c = _
    rw [hup, S.follow_cond]

/-- C8, evaluated over the reference instance: alice follows bob twice from
the empty edge set; the store then holds the one edge (2, 1). -/
theorem follow_twice_idempotent_witness :
    (FollowUser Mem.memRepo (FollowUser Mem.memRepo Mem.db0 "bob" "a@x.com").db
        "bob" "a@x.com").err = none ∧
    (FollowUser Mem.memRepo (FollowUser Mem.memRepo Mem.db0 "bob" "a@x.com").db
        "bob" "a@x.com").db = ⟨[Mem.alice, Mem.bob], [(2, 1)]⟩ :=
  ⟨(follow_twice_idempotent Mem.memRepo Mem.MemDB.follows memRepo_setSemantics Mem.db0
      Mem.alice Mem.bob (by decide) rfl rfl).1,
   ((follow_twice_idempotent Mem.memRepo Mem.MemDB.follows memRepo_setSemantics Mem.db0
      Mem.alice Mem.bob (by decide) rfl rfl).2.2.1).trans (by decide)⟩

/-- C9: for every parsed body and every value of the claims store, the
record the `Update` handler passes to the use-case `Update` is the body with
Email replaced by the email claim (the empty string when no claims are
stored) and every other field as parsed; when the claims lookup panics no
use-case call is made; and replacing the email of the body by any other
string leaves the whole run of the handler (use-case calls, responses and
store) the same. -/
theorem update_email_from_claims (core : controller.IUserCenter σ ε) (body : User)
    (claims : Option controller.KeyValue) (name : String) (db : σ) :
    (∀ email, controller.claimsEmail claims = some email →
      (controller.Update core ⟨Except.ok body, claims, name⟩ db).core =
        [controller.CoreCall.Update
          ⟨body.ID, email, body.Username, body.Password, body.Bio, body.Image⟩]) ∧
    (controller.claimsEmail claims = none →
      (controller.Update core ⟨Except.ok body, claims, name⟩ db).core = []) ∧
    controller.claimsEmail none = some "" ∧
    (∀ m s, m.lookup "email" = some (controller.Iface.str s) →
      controller.claimsEmail (some (controller.KeyValue.MapClaims m)) = some s) ∧
    (∀ x, controller.Update core ⟨Except.ok { body with Email := x }, claims, name⟩ db =
      controller.Update core ⟨Except.ok body, claims, name⟩ db) := by
  refine ⟨?_, ?_, rfl, ?_, ?_⟩
  · intro email h
    simp only [controller.Update, h]
    split <;> rfl
  · intro h
    simp [controller.Update, h]
  · intro m s h
    simp [controller.claimsEmail, h]
  · intro x
    simp only [controller.Update]

/-- C9, evaluated over the reference instance: a body that names the email of
bob, sent with the claims of alice, reaches the use case with the email of
alice. -/
theorem update_email_from_claims_witness :
    (controller.Update (controller.newUser Mem.memRepo)
      ⟨Except.ok ⟨0, "b@x.com", "", "", "new bio", none⟩,
       some (controller.KeyValue.MapClaims [("email", controller.Iface.str "a@x.com")]),
       ""⟩ Mem.db0).core =
      [controller.CoreCall.Update ⟨0, "a@x.com", "", "", "new bio", none⟩] :=
  (update_email_from_claims (controller.newUser Mem.memRepo)
    ⟨0, "b@x.com", "", "", "new bio", none⟩
    (some (controller.KeyValue.MapClaims [("email", controller.Iface.str "a@x.com")]))
    "" Mem.db0).1 "a@x.com" (by decide)

/-- Every error return of the use-case layer comes with a nil result. -/
theorem useCase_error_nil_result (K : Collab σ ε) (db : σ) (name email : String) :
    ((GetUserByEmail K db email).err ≠ none → (GetUserByEmail K db email).val = none) ∧
    ((GetProfile K db name email).err ≠ none → (GetProfile K db name email).val = none) ∧
    ((FollowUser K db name email).err ≠ none → (FollowUser K db name email).val = none) ∧
    ((UnFollowUser K db name email).err ≠ none →
      (UnFollowUser K db name email).val = none) := by
  refine ⟨?_, ?_, ?_, ?_⟩
  · unfold GetUserByEmail
    split <;> simp
  · unfold GetProfile
    split
    · simp
    · split <;> simp
  · unfold FollowUser
    split
    · simp
    · split
      · simp
      · dsimp only
        split
        · simp
        · split <;> simp
  · unfold UnFollowUser
    split
    · simp
    · split
      · simp
      · dsimp only
        split
        · simp
        · split <;> simp

/-- C10 as stated fails for `Update`: with a parsed body and stored claims
that hold no "email" entry, the type assertion to string panics after the
parse and the handler has made no response call. -/
theorem update_panic_makes_no_response :
    (controller.Update (controller.newUser Mem.memRepo)
      ⟨Except.ok ⟨0, "", "", "", "new bio", none⟩, some (controller.KeyValue.MapClaims []), ""⟩
      Mem.db0).responses = [] ∧
    (controller.Update (controller.newUser Mem.memRepo)
      ⟨Except.ok ⟨0, "", "", "", "new bio", none⟩, some (controller.KeyValue.MapClaims []), ""⟩
      Mem.db0).panicked = true ∧
    (controller.Update (controller.newUser Mem.memRepo)
      ⟨Except.ok ⟨0, "", "", "", "new bio", none⟩, some (controller.KeyValue.MapClaims []), ""⟩
      Mem.db0).responses.length ≠ 1 := by
  decide

/-- C10 (amended): in `Get`, `GetProfile`, `Follow` and `UnFollow`, when the
use-case call returns an error the handler calls `abortWithError` with status
400 and that error and then `responseWithJSON` with the result of the call,
which is nil for the use-case layer of `user.go`: two response calls.
`Login` and `Register` make exactly one response call on every path, and
`Update` makes exactly one on every path on which the claims lookup succeeds:
`abortWithError` with 400 on a parse failure, `abortWithError` with 401
(`Login`) or 400 (`Register`, `Update`) on a use-case failure, and
`responseWithJSON` on success. -/
theorem handler_response_calls (K : Collab σ ε) (c : controller.Context ε) (db : σ) :
    (∀ email err, controller.claimsEmail c.claims = some email →
      (GetUserByEmail K db email).err = some err →
      (controller.Get (controller.newUser K) c db).responses =
        [controller.Response.abortWithError 400 err,
         controller.Response.responseWithJSON (controller.Payload.user none)]) ∧
    (∀ email err, controller.claimsEmail c.claims = some email →
      (GetProfile K db c.username email).err = some err →
      (controller.GetProfile (controller.newUser K) c db).responses =
        [controller.Response.abortWithError 400 err,
         controller.Response.responseWithJSON (controller.Payload.profile none)]) ∧
    (∀ email err, controller.claimsEmail c.claims = some email →
      (FollowUser K db c.username email).err = some err →
      (controller.Follow (controller.newUser K) c db).responses =
        [controller.Response.abortWithError 400 err,
         controller.Response.responseWithJSON (controller.Payload.profile none)]) ∧
    (∀ email err, controller.claimsEmail c.claims = some email →
      (UnFollowUser K db c.username email).err = some err →
      (controller.UnFollow (controller.newUser K) c db).responses =
        [controller.Response.abortWithError 400 err,
         controller.Response.responseWithJSON (controller.Payload.profile none)]) ∧
    (∀ e, c.bind = Except.error e →
      (controller.Login (controller.newUser K) c db).responses =
        [controller.Response.abortWithError 400 (GoError.collab e)] ∧
      (controller.Register (controller.newUser K) c db).responses =
        [controller.Response.abortWithError 400 (GoError.collab e)] ∧
      (controller.Update (controller.newUser K) c db).responses =
        [controller.Response.abortWithError 400 (GoError.collab e)]) ∧
    (∀ u, c.bind = Except.ok u →
      (controller.Login (controller.newUser K) c db).responses =
        (match (Login K db u).err with
         | some err => [controller.Response.abortWithError 401 err]
         | none => [controller.Response.responseWithJSON
                      (controller.Payload.token (Login K db u).val)]) ∧
      (controller.Register (controller.newUser K) c db).responses =
        (match (Register K db u).err with
         | some err => [controller.Response.abortWithError 400 err]
         | none => [controller.Response.responseWithJSON controller.Payload.null]) ∧
      (∀ email, controller.claimsEmail c.claims = some email →
        (controller.Update (controller.newUser K) c db).responses =
          (match (Update K db { u with Email := email }).err with
           | some err => [controller.Response.abortWithError 400 err]
           | none => [controller.Response.responseWithJSON controller.Payload.null]))) ∧
    (controller.Login (controller.newUser K) c db).responses.length = 1 ∧
    (controller.Register (controller.newUser K) c db).responses.length = 1 ∧
    (controller.claimsEmail c.claims ≠ none →
      (controller.Update (controller.newUser K) c db).responses.length = 1) := by
  have hnil := useCase_error_nil_result K db
  refine ⟨?_, ?_, ?_, ?_, ?_, ?_, ?_, ?_, ?_⟩
  · intro email err h1 h2
    have hv := (hnil c.username email).1 (by simp [h2])
    simp [controller.Get, controller.newUser, h1, h2, hv, controller.StatusBadRequest]
  · intro email err h1 h2
    have hv := (hnil c.username email).2.1 (by simp [h2])
    simp [controller.GetProfile, controller.newUser, h1, h2, hv, controller.StatusBadRequest]
  · intro email err h1 h2
    have hv := (hnil c.username email).2.2.1 (by simp [h2])
    simp [controller.Follow, controller.newUser, h1, h2, hv, controller.StatusBadRequest]
  · intro email err h1 h2
    have hv := (hnil c.username email).2.2.2 (by simp [h2])
    simp [controller.UnFollow, controller.newUser, h1, h2, hv, controller.StatusBadRequest]
  · intro e h
    simp [controller.Login, controller.Register, controller.Update, h,
      controller.StatusBadRequest]
  · intro u h
    refine ⟨?_, ?_, ?_⟩
    · simp only [controller.Login, controller.newUser, h]
      split <;> simp_all [controller.StatusUnauthorized]
    · simp only [controller.Register, controller.newUser, h]
      split <;> simp_all [controller.StatusBadRequest]
    · intro email he
      simp only [controller.Update, controller.newUser, h, he]
      split <;> simp_all [controller.StatusBadRequest]
  · simp only [controller.Login]
    split
    · rfl
    · split <;> rfl
  · simp only [controller.Register]
    split
    · rfl
    · split <;> rfl
  · intro hne
    simp only [controller.Update]
    split
    · rfl
    · split
      · contradiction
      · split <;> rfl

/-- C10 (amended), evaluated over the reference instance: `Get` without
claims looks up the empty email, fails and makes two response calls; `Update`
with the claims of alice makes one. -/
theorem handler_response_calls_witness :
    (controller.Get (controller.newUser Mem.memRepo)
      ⟨Except.error "EOF", none, ""⟩ Mem.db0).responses =
      [controller.Response.abortWithError 400 (GoError.collab "record not found"),
       controller.Response.responseWithJSON (controller.Payload.user none)] ∧
    (controller.Update (controller.newUser Mem.memRepo)
      ⟨Except.ok ⟨0, "", "", "", "new bio", none⟩,
       some (controller.KeyValue.MapClaims [("email", controller.Iface.str "a@x.com")]),
       ""⟩ Mem.db0).responses.length = 1 :=
  ⟨(handler_response_calls Mem.memRepo ⟨Except.error "EOF", none, ""⟩ Mem.db0).1
      "" (GoError.collab "record not found") rfl rfl,
   (handler_response_calls Mem.memRepo
      ⟨Except.ok ⟨0, "", "", "", "new bio", none⟩,
       some (controller.KeyValue.MapClaims [("email", controller.Iface.str "a@x.com")]),
       ""⟩ Mem.db0).2.2.2.2.2.2.2.2 (by decide)⟩

end Theorems

end Blog
